import Mathlib

/-!
Verification development for the WebGIS backend (`src/main.py`).

The repository is a FastAPI service wrapping a PostGIS database.  This file
gives a shallow embedding of its request handlers.  Machine-level concerns
(actual sockets, the asyncpg wire protocol, geometry arithmetic) are abstracted
into explicit oracles/state: the database is an association list from table
names to row lists (a row is the `ST_AsGeoJSON` text of that record), fallible
library calls are `Except`/`Bool` oracles, and JSON response bodies are a small
inductive type whose constructors name the concrete JSON objects the handlers
build.  Control flow — branch conditions, Python string sanitisation, the
`try`/`except`/`finally` structure, the `with TemporaryDirectory` scope — is
translated from `src/main.py` line by line.
-/

set_option autoImplicit false

/-! ## Python string primitives used by the handlers -/

/-- `str.endswith(suffix)` for a single suffix (Python semantics: `True` iff
`suffix` is a suffix of the string). -/
def py_endswith (s suffix : String) : Bool :=
  s.toList.drop (s.toList.length - suffix.toList.length) == suffix.toList
    && suffix.toList.length ≤ s.toList.length

/-- `str.startswith(p)` for a single pattern. -/
def py_startswith (s p : String) : Bool :=
  s.toList.take p.toList.length == p.toList

/-- The whitespace characters stripped by `str.strip()` (ASCII part; the
handlers only branch on ASCII SQL text). -/
def py_isspace (c : Char) : Bool :=
  c = ' ' || c = '\t' || c = '\n' || c = '\r' || c = '\x0b' || c = '\x0c'

/-- `str.strip()`: remove leading and trailing whitespace. -/
def py_strip (s : String) : String :=
  ⟨((s.toList.dropWhile py_isspace).reverse.dropWhile py_isspace).reverse⟩

/-- `str.upper()` (ASCII case mapping, which is what the SQL keywords use). -/
def py_upper (s : String) : String :=
  ⟨s.toList.map Char.toUpper⟩

/-- `str.lower()` (ASCII case mapping). -/
def py_lower (s : String) : String :=
  ⟨s.toList.map Char.toLower⟩

/-- `str.replace(" ", "_")`: the one-character pattern makes this a
character-wise map. -/
def py_replace_space (s : String) : String :=
  ⟨s.toList.map (fun c => if c = ' ' then '_' else c)⟩

/-- Index of the last occurrence of `c` in `l`, if any. -/
def last_index_of (l : List Char) (c : Char) : Option Nat :=
  (l.reverse.findIdx? (· = c)).map (fun i => l.length - 1 - i)

/-- The root part of CPython `os.path.splitext`: the extension starts at the
last dot, provided that dot lies after the last path separator and the
basename has a non-dot character before it (so `.bashrc` has no extension). -/
def splitext_root (p : String) : String :=
  let l := p.toList
  let sepIdx : Int := match last_index_of l '/' with
    | some i => (i : Int)
    | none => -1
  let dotIdx : Int := match last_index_of l '.' with
    | some i => (i : Int)
    | none => -1
  if dotIdx > sepIdx then
    let nameStart := (sepIdx + 1).toNat
    let dotN := dotIdx.toNat
    if (List.range (dotN - nameStart)).any (fun k => l.getD (nameStart + k) ' ' != '.') then
      ⟨l.take dotN⟩
    else
      p
  else
    p

/-! ## Response bodies, responses, database state -/

/-- JSON bodies produced by the handlers.  Each constructor stands for the
concrete JSON object built at the corresponding line of `src/main.py`:
`feature_collection fs` is `{"type": "FeatureCollection", "features": fs}`,
`message_count m n` is `{"message": m, "count": n}`, `status_obj s` is
`{"status": s}`, `layers es` is the list of `{"name": ., "type": .}` records,
`test_db_ok v p` is the success body of `/api/test-db`, `error_obj e` is
`{"error": e}` and `error_status m` is `{"status": "error", "message": m}`. -/
inductive Body where
  | feature_collection (features : List String)
  | message_count (message : String) (count : Nat)
  | status_obj (status : String)
  | layers (entries : List (String × String))
  | test_db_ok (version postgis : String)
  | error_obj (error : String)
  | error_status (message : String)
deriving DecidableEq, Repr

/-- Outcome of one request: a 200 body, a raised `HTTPException` (FastAPI
renders it with its status code), or an explicit `JSONResponse` with an error
status code. -/
inductive Response where
  | ok (body : Body)
  | http_error (status : Nat) (detail : String)
  | json_error (status : Nat) (body : Body)
deriving DecidableEq, Repr

/-- HTTP status code of a response. -/
def Response.status : Response → Nat
  | .ok _ => 200
  | .http_error s _ => s
  | .json_error s _ => s

/-- Whether the response is a 200 success. -/
def Response.is_success : Response → Bool
  | .ok _ => true
  | .http_error _ _ => false
  | .json_error _ _ => false

/-- The database: tables in the public schema, each a list of rows (a row is
the `ST_AsGeoJSON` serialisation the read path would produce for it). -/
structure DB where
  tables : List (String × List String)
deriving DecidableEq, Repr

/-- Rows of table `t`, `none` when no such relation exists. -/
def DB.lookup (db : DB) (t : String) : Option (List String) :=
  (db.tables.find? (fun p => p.1 == t)).map (fun p => p.2)

/-- Effect of `to_postgis(..., if_exists=replace)`: drop any table named `t`
and store `rows` under `t`. -/
def DB.replace_table (db : DB) (t : String) (rows : List String) : DB :=
  ⟨(t, rows) :: db.tables.filter (fun p => p.1 != t)⟩

/-- Effect of `DROP TABLE IF EXISTS "t"`: remove the table when present; a
no-op (not an error) when absent. -/
def DB.drop_if_exists (db : DB) (t : String) : DB :=
  ⟨db.tables.filter (fun p => p.1 != t)⟩

/-! ## Module configuration and the connection helper (src/main.py lines 1-103)

The configuration block binds connection URLs but never the individual names
`DB_USER`, `DB_PASS`, `DB_NAME`, `DB_HOST`, `DB_PORT` that
`get_db_connection` passes to `asyncpg.connect`.  Evaluating an unbound name
raises `NameError` inside the `try` of the helper, caught and re-raised as
`HTTPException(500, ...)`.  We record the set of names the module binds at top
level (in the run where the `DATABASE_URL` environment variable is set, so
that the module-level `else` branch using `DB_USER` itself is skipped and
the module import completes) and model the helper as a lookup over that set. -/

/-- Names bound at the top level of `src/main.py`: the imports (lines 1-18,
29-30) and the module-level assignments and definitions. -/
def module_top_level_names : List String :=
  ["os", "shutil", "tempfile", "zipfile", "json", "List", "Optional",
   "uvicorn", "FastAPI", "File", "UploadFile", "HTTPException",
   "CORSMiddleware", "FileResponse", "JSONResponse", "StaticFiles",
   "BaseModel", "gpd", "create_engine", "text", "asyncpg", "load_dotenv",
   "BASE_DIR", "db_url", "DATABASE_URL_SYNC", "DATABASE_URL_ASYNC",
   "DATABASE_URL_ENV", "app", "engine", "QueryRequest", "BufferRequest",
   "AddFieldRequest", "get_db_connection", "startup_msg", "test_db",
   "get_layers", "get_layer_geojson", "upload_file", "run_custom_query",
   "create_buffer", "export_shapefile", "add_field", "delete_layer"]

/-- The names `get_db_connection` evaluates as keyword arguments of
`asyncpg.connect` (line 100). -/
def db_connect_params : List String :=
  ["DB_USER", "DB_PASS", "DB_NAME", "DB_HOST", "DB_PORT"]

/-- Detail string of the `HTTPException` the helper raises when the connect
call fails (here: the `NameError` for the first unbound parameter name). -/
def db_conn_error_detail : String :=
  "Database connection error: NameError: name DB_USER is not defined"

/-- What a call to the connection helper can produce: a live connection, or a
raised `HTTPException`. -/
inductive ConnResult where
  | conn
  | http_exc (status : Nat) (detail : String)
deriving DecidableEq, Repr

/-- `get_db_connection` (lines 98-103): the `asyncpg.connect` call can only be
reached — and hence a connection returned — if every parameter name it
mentions is bound in the module; otherwise the `NameError` is caught and
re-raised as `HTTPException(500, ...)`. -/
def get_db_connection : ConnResult :=
  if db_connect_params.all (fun n => module_top_level_names.contains n) then
    .conn
  else
    .http_exc 500 db_conn_error_detail

/-- Whether the helper yields a connection in the program as written. -/
def conn_acquired : Bool :=
  match get_db_connection with
  | .conn => true
  | .http_exc _ _ => false

/-- `str(e)` for a Starlette `HTTPException`: `"{status_code}: {detail}"`. -/
def py_str_http (status : Nat) (detail : String) : String :=
  toString status ++ ": " ++ detail

/-! ## Connection lifecycle bookkeeping -/

/-- Per-request connection trace: whether the handler acquired a connection
and whether it closed it before returning. -/
structure ConnTrace where
  opened : Bool
  closed : Bool
deriving DecidableEq, Repr

/-- Whether an `Except` result is a success. -/
def exc_is_ok {ε α : Type} : Except ε α → Bool
  | .ok _ => true
  | .error _ => false

/-! ## Buffer endpoint: UTM SRID selection (src/main.py lines 235-254)

The `/api/buffer` SQL computes, from the centroid of the input geometry, a
projected SRID:

    CASE WHEN ST_Y(ST_Centroid(geom)) > 0
         THEN 32600 + floor((ST_X(ST_Centroid(geom)) + 186) / 6)::int
         ELSE 32700 + floor((ST_X(ST_Centroid(geom)) + 186) / 6)::int END

`ST_X`/`ST_Y` of the centroid are its longitude/latitude; we model the
coordinates as rationals and SQL `floor` as `Int.floor`. -/

/-- Centroid of the buffer input geometry: `ST_X` (longitude) and `ST_Y`
(latitude). -/
structure Centroid where
  x : ℚ
  y : ℚ

/-- The `CASE` expression of the buffer query selecting the projected SRID. -/
def buffer_utm_srid (c : Centroid) : ℤ :=
  if c.y > 0 then 32600 + ⌊(c.x + 186) / 6⌋ else 32700 + ⌊(c.x + 186) / 6⌋

/-- C1: for the buffer operation, the projected system is EPSG
`base + floor((longitude + 186)/6)` with base 32600 when the centroid latitude
is positive and 32700 otherwise; in particular longitude -122 / latitude 37
selects EPSG 32610 and longitude 151 / latitude -33 selects EPSG 32756. -/
theorem buffer_utm_srid_spec :
    (∀ c : Centroid,
        buffer_utm_srid c = (if c.y > 0 then 32600 else 32700) + ⌊(c.x + 186) / 6⌋)
    ∧ buffer_utm_srid ⟨-122, 37⟩ = 32610
    ∧ buffer_utm_srid ⟨151, -33⟩ = 32756 := by
  refine ⟨fun c => ?_, ?_, ?_⟩
  · unfold buffer_utm_srid
    split <;> rfl
  · show (if (37 : ℚ) > 0 then 32600 + ⌊((-122 : ℚ) + 186) / 6⌋
          else 32700 + ⌊((-122 : ℚ) + 186) / 6⌋) = 32610
    norm_num [Int.floor_eq_iff]
  · show (if (-33 : ℚ) > 0 then 32600 + ⌊((151 : ℚ) + 186) / 6⌋
          else 32700 + ⌊((151 : ℚ) + 186) / 6⌋) = 32756
    norm_num [Int.floor_eq_iff]

/-! ## GET /api/test-db (src/main.py lines 114-129)

The whole body sits in one `try`: connection acquisition, the two diagnostic
`fetchval` calls, and an inline `conn.close()` on the success path only; the
`except Exception` returns a `JSONResponse(500, ...)`.  There is no `finally`,
so an exception raised after the connection is acquired leaves it open. -/

/-- Oracles for one `test_db` request: whether the connection helper succeeds
and the results of `SELECT version()` and `SELECT PostGIS_Version()`. -/
structure TestDbOracle where
  conn_ok : Bool
  version_q : Except String String
  postgis_q : Except String String
deriving Repr

/-- The `test_db` handler. -/
def test_db (o : TestDbOracle) : Response × ConnTrace :=
  if o.conn_ok = false then
    (.json_error 500 (.error_status (py_str_http 500 db_conn_error_detail)), ⟨false, false⟩)
  else
    match o.version_q with
    | .error e => (.json_error 500 (.error_status e), ⟨true, false⟩)
    | .ok v =>
      match o.postgis_q with
      | .error e => (.json_error 500 (.error_status e), ⟨true, false⟩)
      | .ok p => (.ok (.test_db_ok v p), ⟨true, true⟩)

/-! ## GET /api/layers (src/main.py lines 133-146)

Connection acquired before the `try`; body fetches from `geometry_columns`;
`finally` closes the connection, so both the success path and a raised
database error (which then propagates as a generic 500) close it. -/

/-- The `get_layers` handler; `q` is the result of the catalog fetch, a list
of (table name, geometry type) rows. -/
def get_layers (conn_ok : Bool) (q : Except String (List (String × String))) :
    Response × ConnTrace :=
  if conn_ok = false then
    (.http_error 500 db_conn_error_detail, ⟨false, false⟩)
  else
    match q with
    | .error e => (.http_error 500 e, ⟨true, true⟩)
    | .ok rows => (.ok (.layers rows), ⟨true, true⟩)

/-! ## GET /api/layers/{table}/geojson (src/main.py lines 148-168) -/

/-- Statements a handler sends over its connection (beyond the fixed catalog
listing): the parameterised `to_regclass` lookup, the table-scoped
FeatureCollection aggregation `SELECT ... FROM "table"`, and
`DROP TABLE IF EXISTS "table"`. -/
inductive Query where
  | regclass_lookup (table : String)
  | table_scan (table : String)
  | drop_table (table : String)
deriving DecidableEq, Repr

/-- `SELECT to_regclass($1::text)`: the relation name when it exists in the
catalog, SQL `NULL` (`None`, falsy) otherwise. -/
def to_regclass (db : DB) (t : String) : Option String :=
  if db.tables.any (fun p => p.1 == t) then some t else none

/-- `fetchval` of the aggregation query over `"t"`: one row holding
`json_build_object(type, FeatureCollection, features, COALESCE(json_agg(...), empty array))`,
so an existing table — even an empty one — yields the FeatureCollection of its
rows (`COALESCE` turns the `NULL` aggregate over zero rows into `[]`). -/
def fetchval_fc (db : DB) (t : String) : Option Body :=
  (db.lookup t).map (fun rows => Body.feature_collection rows)

/-- The empty FeatureCollection `{"type": "FeatureCollection", "features": []}`. -/
def empty_fc : Body := .feature_collection []

/-- The `get_layer_geojson` handler.  Returns the response, the statements
issued on the connection, and the connection trace.  The 404 raised when
`to_regclass` yields nothing passes through the `finally` (closing the
connection) before FastAPI renders it. -/
def get_layer_geojson (conn_ok : Bool) (db : DB) (table : String) :
    Response × List Query × ConnTrace :=
  if conn_ok = false then
    (.http_error 500 db_conn_error_detail, [], ⟨false, false⟩)
  else
    match to_regclass db table with
    | none =>
      (.http_error 404 "Layer not found", [.regclass_lookup table], ⟨true, true⟩)
    | some _ =>
      match fetchval_fc db table with
      | some r =>
        (.ok r, [.regclass_lookup table, .table_scan table], ⟨true, true⟩)
      | none =>
        (.ok empty_fc, [.regclass_lookup table, .table_scan table], ⟨true, true⟩)

/-! ## POST /api/query (src/main.py lines 205-226) -/

/-- Oracles for one ad-hoc query request: the rows the `SELECT` of the user
produces when evaluated as the subquery `q` (each row serialised by
`ST_AsGeoJSON`), and the status string of a direct `conn.execute`. -/
structure QueryOracle where
  select_rows : Except String (List String)
  exec_status : Except String String
deriving Repr

/-- Which statement the ad-hoc query handler sends: the client SQL wrapped in
`WITH q AS (...) SELECT json_build_object(... FeatureCollection ...) FROM q`,
or the client SQL verbatim. -/
inductive Issued where
  | wrapped_fc (inner : String)
  | direct (sql : String)
deriving DecidableEq, Repr

/-- The `run_custom_query` handler.  The branch condition is literally
`req.sql.strip().upper().startswith("SELECT")`; on the select branch,
`fetchval` of the wrapped aggregate always yields the one built JSON object
(the `if result else` fallback to an empty FeatureCollection is kept from the
code); errors are returned as `JSONResponse(400, {"error": ...})`; `finally`
closes the connection. -/
def run_custom_query (conn_ok : Bool) (o : QueryOracle) (sql : String) :
    Response × List Issued × ConnTrace :=
  if conn_ok = false then
    (.http_error 500 db_conn_error_detail, [], ⟨false, false⟩)
  else
    if py_startswith (py_upper (py_strip sql)) "SELECT" then
      match o.select_rows with
      | .error e => (.json_error 400 (.error_obj e), [.wrapped_fc sql], ⟨true, true⟩)
      | .ok rows =>
        let result : Option Body := some (.feature_collection rows)
        (match result with
         | some b => (.ok b, [.wrapped_fc sql], ⟨true, true⟩)
         | none => (.ok empty_fc, [.wrapped_fc sql], ⟨true, true⟩))
    else
      match o.exec_status with
      | .error e => (.json_error 400 (.error_obj e), [.direct sql], ⟨true, true⟩)
      | .ok st => (.ok (.status_obj st), [.direct sql], ⟨true, true⟩)

/-! ## DELETE /api/layers/{table} (src/main.py lines 297-304) -/

/-- The `delete_layer` handler: `DROP TABLE IF EXISTS "table"` then
`{"status": "deleted"}`; `finally` closes the connection.  `exec_ok` models a
transport-level failure of the `execute` call (the statement itself cannot
fail on an absent table); such an exception passes through the `finally` and
surfaces as a generic 500. -/
def delete_layer (conn_ok exec_ok : Bool) (db : DB) (table : String) :
    Response × DB × List Query × ConnTrace :=
  if conn_ok = false then
    (.http_error 500 db_conn_error_detail, db, [], ⟨false, false⟩)
  else if exec_ok = false then
    (.http_error 500 "connection error during execute", db, [.drop_table table], ⟨true, true⟩)
  else
    (.ok (.status_obj "deleted"), db.drop_if_exists table, [.drop_table table], ⟨true, true⟩)

/-! ## POST /api/upload (src/main.py lines 170-203)

The handler body sits inside `with tempfile.TemporaryDirectory() as tmp:`;
the Python `with` statement runs the cleanup (removing the whole directory)
on every way out of the block, exception or not.  Inside, the uploaded payload
is saved into the directory, then a `try` handles zip extraction, dataframe
parsing and the database write; its `except Exception as e` re-raises
*anything* — including the `HTTPException(400, ...)` raised for a zip without
a `.shp` member, since the Starlette `HTTPException` subclasses `Exception` — as
`HTTPException(500, str(e))`. -/

/-- Filesystem state: existing temporary directories and existing files, a
file being (containing directory, file name). -/
structure FsState where
  dirs : List String
  files : List (String × String)
deriving DecidableEq, Repr

/-- Exceptions the `try` block of the upload handler can raise: a Starlette
`HTTPException`, or any other exception carrying a message (bad zip archive,
dataframe parse failure, database write failure). -/
inductive PyExc where
  | http (status : Nat) (detail : String)
  | err (msg : String)
deriving DecidableEq, Repr

/-- Python `str(e)`: Starlette renders `HTTPException` as
`"{status_code}: {detail}"`; for plain exceptions the message. -/
def py_str_exc : PyExc → String
  | .http s d => py_str_http s d
  | .err m => m

/-- One upload request: the client filename, whether `zipfile` accepts the
payload and which member names it extracts, whether `gpd.read_file` succeeds,
the parsed rows (post-reprojection `ST_AsGeoJSON` serialisations, so the
`to_crs` step is absorbed into them), and whether `to_postgis` succeeds. -/
structure UploadIn where
  filename : String
  zip_ok : Bool
  zip_entries : List String
  read_ok : Bool
  rows : List String
  write_ok : Bool
deriving DecidableEq, Repr

/-- The destination table name (line 193):
`os.path.splitext(file.filename)[0].replace(" ", "_").lower()`. -/
def py_table_name (filename : String) : String :=
  py_lower (py_replace_space (splitext_root filename))

/-- Exit of the `with TemporaryDirectory` block: the directory and every file
in it are removed, whatever the outcome was. -/
def fs_cleanup (tmp : String) (fs : FsState) : FsState :=
  ⟨fs.dirs.filter (fun d => d != tmp), fs.files.filter (fun p => p.1 != tmp)⟩

/-- Lines 191-199: parse the dataset, compute the table name, reproject when a
CRS is present (no observable effect on our abstract rows), and bulk-write
with `if_exists=replace`. -/
def read_and_write (inp : UploadIn) (db : DB) (fs : FsState) :
    Except PyExc Body × DB × FsState :=
  if inp.read_ok = false then
    (.error (.err "read error"), db, fs)
  else
    let table_name := py_table_name inp.filename
    if inp.write_ok = false then
      (.error (.err "write error"), db, fs)
    else
      (.ok (.message_count ("Successfully imported layer: " ++ table_name) inp.rows.length),
       db.replace_table table_name inp.rows, fs)

/-- The inner `try` block (lines 180-199), starting from the state where the
uploaded payload is already saved in `tmp`.  For a `.zip` payload the archive
is extracted into `tmp`, then `os.listdir(tmp)` — the uploaded file plus the
extracted members — is filtered for `.shp` names; when none is found the
handler raises `HTTPException(400, "Zip file must contain a .shp file")`. -/
def upload_body (inp : UploadIn) (tmp : String) (db : DB) (fs : FsState) :
    Except PyExc Body × DB × FsState :=
  if py_endswith inp.filename ".zip" then
    if inp.zip_ok = false then
      (.error (.err "File is not a zip file"), db, fs)
    else
      let fs1 : FsState := { fs with files := inp.zip_entries.map (fun e => (tmp, e)) ++ fs.files }
      let shp_files := (inp.filename :: inp.zip_entries).filter (fun f => py_endswith f ".shp")
      if shp_files.isEmpty then
        (.error (.http 400 "Zip file must contain a .shp file"), db, fs1)
      else
        read_and_write inp db fs1
  else
    read_and_write inp db fs

/-- The `upload_file` handler: create the scoped temporary directory, save the
payload into it, run the `try` body, translate any exception through
`except Exception as e: raise HTTPException(status_code=500, detail=str(e))`,
and on either path leave the `with` block, which removes the directory. -/
def upload_file (inp : UploadIn) (tmp : String) (db : DB) (fs : FsState) :
    Response × DB × FsState :=
  let fs1 : FsState := { dirs := tmp :: fs.dirs, files := (tmp, inp.filename) :: fs.files }
  match upload_body inp tmp db fs1 with
  | (.ok b, db2, fs2) => (.ok b, db2, fs_cleanup tmp fs2)
  | (.error e, db2, fs2) => (.http_error 500 (py_str_exc e), db2, fs_cleanup tmp fs2)

/-! ## Helper lemmas -/

/-- Filtering away a value that does not occur keeps the list. -/
theorem filter_ne_of_not_mem (tmp : String) (l : List String) (h : tmp ∉ l) :
    l.filter (fun d => d != tmp) = l :=
  List.filter_eq_self.mpr (fun _a ha => bne_iff_ne.mpr (fun e => h (e ▸ ha)))

/-- Filtering on the first component keeps entries outside directory `tmp`. -/
theorem filter_fst_ne_of (tmp : String) (l : List (String × String))
    (h : ∀ p ∈ l, p.1 ≠ tmp) :
    l.filter (fun p => p.1 != tmp) = l :=
  List.filter_eq_self.mpr (fun a ha => bne_iff_ne.mpr (h a ha))

/-- Entries that all live in directory `tmp` are removed by the filter. -/
theorem filter_fst_all_eq (tmp : String) (l : List (String × String))
    (h : ∀ p ∈ l, p.1 = tmp) :
    l.filter (fun p => p.1 != tmp) = [] := by
  rw [List.filter_eq_nil_iff]
  intro a ha
  simp [h a ha]

/-- `replace_table` stores the new rows under the table name. -/
theorem DB.lookup_replace_table (db : DB) (t : String) (rows : List String) :
    (db.replace_table t rows).lookup t = some rows := by
  unfold DB.replace_table DB.lookup
  rw [List.find?_cons_of_pos]
  · rfl
  · simp

/-! ## Claim theorems -/

/-- C2 (failing input): uploading `data.zip` whose archive extracts only
`readme.txt` — no `.shp` member — makes the handler respond with HTTP **500**
(detail `"400: Zip file must contain a .shp file"`), not the bad-request 400
the spec describes: the `HTTPException(400, ...)` raised at line 188 is itself
an `Exception`, so the blanket `except Exception` at line 201 catches it and
re-raises it as `HTTPException(500, str(e))`. -/
theorem upload_zip_without_shp_gives_500 :
    upload_file ⟨"data.zip", true, ["readme.txt"], true, [], true⟩ "tmpd" ⟨[]⟩ ⟨[], []⟩ =
      (.http_error 500 "400: Zip file must contain a .shp file", ⟨[]⟩, ⟨[], []⟩) := by
  rfl

/-- C3: when the `to_regclass` catalog lookup yields nothing, the GeoJSON read
fails with HTTP 404 ("Layer not found") and the table-scoped aggregation query
is never issued on the connection. -/
theorem get_layer_geojson_missing_404 :
    ∀ (db : DB) (t : String), to_regclass db t = none →
      (get_layer_geojson true db t).1 = .http_error 404 "Layer not found"
      ∧ Query.table_scan t ∉ (get_layer_geojson true db t).2.1 := by
  intro db t h
  unfold get_layer_geojson
  simp [h]

/-- C3 witness: the concrete database `{roads}` queried for `missing`. -/
theorem get_layer_geojson_missing_404_witness :
    (get_layer_geojson true ⟨[("roads", [])]⟩ "missing").1 = .http_error 404 "Layer not found"
    ∧ Query.table_scan "missing" ∉ (get_layer_geojson true ⟨[("roads", [])]⟩ "missing").2.1 :=
  get_layer_geojson_missing_404 ⟨[("roads", [])]⟩ "missing" rfl

/-- C4: an existing table with zero rows yields exactly the empty
FeatureCollection `{"type": "FeatureCollection", "features": []}`, with a 200
response, never an error. -/
theorem get_layer_geojson_empty_table :
    ∀ (db : DB) (t : String), db.lookup t = some [] →
      (get_layer_geojson true db t).1 = .ok empty_fc := by
  intro db t h
  have h2 := h
  unfold DB.lookup at h2
  rcases Option.map_eq_some'.mp h2 with ⟨p0, hfind, _⟩
  have hpred := List.find?_some hfind
  have hmem : p0 ∈ db.tables := List.mem_of_find?_eq_some hfind
  have hany : db.tables.any (fun p => p.1 == t) = true := by
    rw [List.any_eq_true]
    exact ⟨p0, hmem, hpred⟩
  unfold get_layer_geojson to_regclass
  simp [hany, fetchval_fc, h, empty_fc]

/-- C4 witness: the empty table `roads`. -/
theorem get_layer_geojson_empty_table_witness :
    (get_layer_geojson true ⟨[("roads", [])]⟩ "roads").1 = .ok empty_fc :=
  get_layer_geojson_empty_table ⟨[("roads", [])]⟩ "roads" rfl

/-- C5 (counterexample): `test_db` acquires a connection and, when the first
diagnostic query raises, returns its 500 `JSONResponse` without ever closing
the connection — it has no `finally`, only an inline `close()` on the success
path.  So not every handler closes its connection on every exit path. -/
theorem test_db_leaves_connection_open :
    ((test_db ⟨true, Except.error "boom", Except.ok "3.4"⟩).2).opened = true
    ∧ ((test_db ⟨true, Except.error "boom", Except.ok "3.4"⟩).2).closed = false :=
  ⟨rfl, rfl⟩

/-- C5 (amended): the handlers that wrap their connection use in
`try`/`finally` — among the cited ones, `get_layers` and `delete_layer` —
close the connection on every exit path (closed whenever opened, for every
oracle outcome); `test_db`, by contrast, closes it exactly when the connection
was acquired and both diagnostic queries succeed. -/
theorem connection_close_discipline :
    (∀ (co : Bool) (q : Except String (List (String × String))),
        ((get_layers co q).2).closed = ((get_layers co q).2).opened)
    ∧ (∀ (co eo : Bool) (db : DB) (t : String),
        ((delete_layer co eo db t).2.2.2).closed = ((delete_layer co eo db t).2.2.2).opened)
    ∧ (∀ (o : TestDbOracle),
        ((test_db o).2).opened = o.conn_ok
        ∧ ((test_db o).2).closed =
            (o.conn_ok && exc_is_ok o.version_q && exc_is_ok o.postgis_q)) := by
  refine ⟨fun co q => ?_, fun co eo db t => ?_, fun o => ?_⟩
  · cases co <;> cases q <;> rfl
  · cases co <;> cases eo <;> rfl
  · obtain ⟨c, v, p⟩ := o
    cases c <;> cases v <;> cases p <;> exact ⟨rfl, rfl⟩

/-- C6: the ad-hoc query handler branches on
`req.sql.strip().upper().startswith("SELECT")`.  On the SELECT side it issues
the wrapped aggregation statement and returns the FeatureCollection of the
result rows (so an empty result gives the empty FeatureCollection); otherwise
it executes the string directly and returns `{"status": <status string>}`. -/
theorem run_custom_query_spec :
    ∀ (o : QueryOracle) (sql : String),
      (py_startswith (py_upper (py_strip sql)) "SELECT" = true →
        ∀ rows, o.select_rows = Except.ok rows →
          run_custom_query true o sql =
            (.ok (.feature_collection rows), [.wrapped_fc sql], ⟨true, true⟩))
      ∧ (py_startswith (py_upper (py_strip sql)) "SELECT" = false →
        ∀ st, o.exec_status = Except.ok st →
          run_custom_query true o sql =
            (.ok (.status_obj st), [.direct sql], ⟨true, true⟩)) := by
  intro o sql
  constructor
  · intro h rows hr
    unfold run_custom_query
    simp [h, hr]
  · intro h st hs
    unfold run_custom_query
    simp [h, hs]

/-- C6 witness: `"  select 1"` with an empty result set, and a direct
`DROP TABLE x` statement. -/
theorem run_custom_query_spec_witness :
    run_custom_query true ⟨Except.ok [], Except.ok "DONE"⟩ "  select 1" =
      (.ok (.feature_collection []), [.wrapped_fc "  select 1"], ⟨true, true⟩)
    ∧ run_custom_query true ⟨Except.ok [], Except.ok "DROP TABLE x"⟩ "DROP TABLE x" =
      (.ok (.status_obj "DROP TABLE x"), [.direct "DROP TABLE x"], ⟨true, true⟩) :=
  ⟨(run_custom_query_spec ⟨Except.ok [], Except.ok "DONE"⟩ "  select 1").1
      (by decide) [] rfl,
   (run_custom_query_spec ⟨Except.ok [], Except.ok "DROP TABLE x"⟩ "DROP TABLE x").2
      (by decide) "DROP TABLE x" rfl⟩

/-- The inner upload block only ever adds files inside the scoped temporary
directory: its resulting filesystem keeps the directories and extends the
files by entries living in `tmp`. -/
theorem upload_body_fs (inp : UploadIn) (tmp : String) (db : DB) (fs : FsState) :
    ∃ added : List (String × String), (∀ p ∈ added, p.1 = tmp) ∧
      (upload_body inp tmp db fs).2.2 = ⟨fs.dirs, added ++ fs.files⟩ := by
  have hmap : ∀ p ∈ inp.zip_entries.map (fun e => (tmp, e)), (p : String × String).1 = tmp := by
    intro p hp
    rcases List.mem_map.mp hp with ⟨e, _, rfl⟩
    rfl
  have hnil : ∀ p ∈ ([] : List (String × String)), (p : String × String).1 = tmp := by
    intro p hp
    exact absurd hp (List.not_mem_nil p)
  unfold upload_body read_and_write
  by_cases hz : py_endswith inp.filename ".zip" = true
  · simp only [hz, if_true]
    by_cases hzo : inp.zip_ok = false
    · simp only [hzo, if_pos rfl]
      exact ⟨[], hnil, rfl⟩
    · simp only [if_neg hzo]
      by_cases hshp : ((inp.filename :: inp.zip_entries).filter
          (fun f => py_endswith f ".shp")).isEmpty = true
      · simp only [hshp, if_true]
        exact ⟨inp.zip_entries.map (fun e => (tmp, e)), hmap, rfl⟩
      · simp only [hshp, if_false, Bool.false_eq_true]
        by_cases hr : inp.read_ok = false
        · simp only [if_pos hr]
          exact ⟨inp.zip_entries.map (fun e => (tmp, e)), hmap, rfl⟩
        · simp only [if_neg hr]
          by_cases hw : inp.write_ok = false
          · simp only [if_pos hw]
            exact ⟨inp.zip_entries.map (fun e => (tmp, e)), hmap, rfl⟩
          · simp only [if_neg hw]
            exact ⟨inp.zip_entries.map (fun e => (tmp, e)), hmap, rfl⟩
  · simp only [if_neg hz]
    by_cases hr : inp.read_ok = false
    · simp only [if_pos hr]
      exact ⟨[], hnil, rfl⟩
    · simp only [if_neg hr]
      by_cases hw : inp.write_ok = false
      · simp only [if_pos hw]
        exact ⟨[], hnil, rfl⟩
      · simp only [if_neg hw]
        exact ⟨[], hnil, rfl⟩

/-- C7: whatever the outcome of an upload request — success, the missing-`.shp`
error, zip/parse/write failures — the scoped temporary directory and every
file placed in it are gone afterwards: the final filesystem state equals the
initial one (for a fresh directory name, as `TemporaryDirectory` guarantees). -/
theorem upload_file_releases_tmpdir :
    ∀ (inp : UploadIn) (tmp : String) (db : DB) (fs : FsState),
      tmp ∉ fs.dirs → (∀ p ∈ fs.files, p.1 ≠ tmp) →
      (upload_file inp tmp db fs).2.2 = fs := by
  intro inp tmp db fs hd hf
  obtain ⟨added, hadd, hfs⟩ :=
    upload_body_fs inp tmp db ⟨tmp :: fs.dirs, (tmp, inp.filename) :: fs.files⟩
  have hmain : (upload_file inp tmp db fs).2.2 =
      fs_cleanup tmp
        ((upload_body inp tmp db ⟨tmp :: fs.dirs, (tmp, inp.filename) :: fs.files⟩).2.2) := by
    unfold upload_file
    rcases hb : upload_body inp tmp db ⟨tmp :: fs.dirs, (tmp, inp.filename) :: fs.files⟩
      with ⟨r, db2, fs2⟩
    cases r <;> simp [hb]
  rw [hmain, hfs]
  unfold fs_cleanup
  have h1 : (tmp :: fs.dirs).filter (fun d => d != tmp) = fs.dirs := by
    rw [List.filter_cons]
    simp [filter_ne_of_not_mem tmp fs.dirs hd]
  have h2 : ((added ++ (tmp, inp.filename) :: fs.files).filter (fun p => p.1 != tmp)) = fs.files := by
    rw [List.filter_append, filter_fst_all_eq tmp added hadd, List.filter_cons]
    simp [filter_fst_ne_of tmp fs.files hf]
  rw [show (⟨tmp :: fs.dirs, added ++ (tmp, inp.filename) :: fs.files⟩ : FsState).dirs
        = tmp :: fs.dirs from rfl]
  rw [show (⟨tmp :: fs.dirs, added ++ (tmp, inp.filename) :: fs.files⟩ : FsState).files
        = added ++ (tmp, inp.filename) :: fs.files from rfl]
  rw [h1, h2]

/-- C7 witness: a failing upload (zip without `.shp`) run against a filesystem
holding an unrelated directory and file, fresh temp name `tmpd`. -/
theorem upload_file_releases_tmpdir_witness :
    (upload_file ⟨"data.zip", true, ["readme.txt"], true, [], true⟩ "tmpd" ⟨[]⟩
        ⟨["keep"], [("keep", "a.txt")]⟩).2.2 = ⟨["keep"], [("keep", "a.txt")]⟩ :=
  upload_file_releases_tmpdir ⟨"data.zip", true, ["readme.txt"], true, [], true⟩ "tmpd" ⟨[]⟩
    ⟨["keep"], [("keep", "a.txt")]⟩ (by decide) (by decide)

/-- C8: for every table identifier — also one naming no existing table — the
delete handler issues exactly `DROP TABLE IF EXISTS "t"` on its connection and
responds `{"status": "deleted"}` (a 200, never an error); afterwards no table
of that name exists. -/
theorem delete_layer_drop_if_exists :
    ∀ (db : DB) (t : String),
      delete_layer true true db t =
        (.ok (.status_obj "deleted"), db.drop_if_exists t, [.drop_table t], ⟨true, true⟩)
      ∧ (db.drop_if_exists t).lookup t = none := by
  intro db t
  refine ⟨rfl, ?_⟩
  unfold DB.drop_if_exists DB.lookup
  have hnone : (db.tables.filter (fun p => p.1 != t)).find? (fun p => p.1 == t) = none := by
    rw [List.find?_eq_none]
    intro x hx
    have hx2 := (List.mem_filter.mp hx).2
    simp only [bne_iff_ne, ne_eq] at hx2
    simp [hx2]
  simp [hnone]

/-- The inner upload block writes the parsed rows to the table named by the
sanitised filename, with replace semantics, whenever it succeeds. -/
theorem upload_body_db (inp : UploadIn) (tmp : String) (db : DB) (fs : FsState) (b : Body)
    (h : (upload_body inp tmp db fs).1 = Except.ok b) :
    (upload_body inp tmp db fs).2.1 = db.replace_table (py_table_name inp.filename) inp.rows := by
  unfold upload_body read_and_write at h ⊢
  by_cases hz : py_endswith inp.filename ".zip" = true
  · simp only [hz, if_true] at h ⊢
    by_cases hzo : inp.zip_ok = false
    · simp only [if_pos hzo] at h
      exact absurd h (by simp)
    · simp only [if_neg hzo] at h ⊢
      by_cases hshp : ((inp.filename :: inp.zip_entries).filter
          (fun f => py_endswith f ".shp")).isEmpty = true
      · simp only [hshp, if_true] at h
        exact absurd h (by simp)
      · simp only [hshp, if_false, Bool.false_eq_true] at h ⊢
        by_cases hr : inp.read_ok = false
        · simp only [if_pos hr] at h
          exact absurd h (by simp)
        · simp only [if_neg hr] at h ⊢
          by_cases hw : inp.write_ok = false
          · simp only [if_pos hw] at h
            exact absurd h (by simp)
          · simp only [if_neg hw]
  · simp only [if_neg hz] at h ⊢
    by_cases hr : inp.read_ok = false
    · simp only [if_pos hr] at h
      exact absurd h (by simp)
    · simp only [if_neg hr] at h ⊢
      by_cases hw : inp.write_ok = false
      · simp only [if_pos hw] at h
        exact absurd h (by simp)
      · simp only [if_neg hw]

/-- C9: whenever an upload succeeds, the database afterwards is the input
database with the table named
`os.path.splitext(filename)[0].replace(" ", "_").lower()` replaced by the
uploaded rows — in particular that table now holds exactly the uploaded rows,
overwriting any previous table of the same name. -/
theorem upload_success_replaces_table :
    ∀ (inp : UploadIn) (tmp : String) (db : DB) (fs : FsState),
      ((upload_file inp tmp db fs).1).is_success = true →
      (upload_file inp tmp db fs).2.1 = db.replace_table (py_table_name inp.filename) inp.rows
      ∧ ((upload_file inp tmp db fs).2.1).lookup (py_table_name inp.filename) = some inp.rows := by
  intro inp tmp db fs h
  rcases hb : upload_body inp tmp db ⟨tmp :: fs.dirs, (tmp, inp.filename) :: fs.files⟩
    with ⟨r, db2, fs3⟩
  have hexp : upload_file inp tmp db fs =
      (match (r, db2, fs3) with
        | (Except.ok b, db2a, fs2a) => (Response.ok b, db2a, fs_cleanup tmp fs2a)
        | (Except.error e, db2a, fs2a) =>
            (Response.http_error 500 (py_str_exc e), db2a, fs_cleanup tmp fs2a)) := by
    unfold upload_file
    simp only [hb]
  cases r with
  | error e =>
    rw [hexp] at h
    exact absurd h (by simp [Response.is_success])
  | ok b =>
    have hdb2 : db2 = db.replace_table (py_table_name inp.filename) inp.rows := by
      have h2 := upload_body_db inp tmp db
        ⟨tmp :: fs.dirs, (tmp, inp.filename) :: fs.files⟩ b (by rw [hb])
      rw [hb] at h2
      exact h2
    rw [hexp, hdb2]
    exact ⟨rfl, DB.lookup_replace_table db (py_table_name inp.filename) inp.rows⟩

/-- C9 witness: uploading `My Map.geojson` (one row) over a database already
holding a table `my_map` replaces that table. -/
theorem upload_success_replaces_table_witness :
    (upload_file ⟨"My Map.geojson", true, [], true, ["f1"], true⟩ "tmpd"
        ⟨[("my_map", ["old"])]⟩ ⟨[], []⟩).2.1 =
      (DB.mk [("my_map", ["old"])]).replace_table (py_table_name "My Map.geojson") ["f1"]
    ∧ ((upload_file ⟨"My Map.geojson", true, [], true, ["f1"], true⟩ "tmpd"
        ⟨[("my_map", ["old"])]⟩ ⟨[], []⟩).2.1).lookup (py_table_name "My Map.geojson") =
      some ["f1"] :=
  upload_success_replaces_table ⟨"My Map.geojson", true, [], true, ["f1"], true⟩ "tmpd"
    ⟨[("my_map", ["old"])]⟩ ⟨[], []⟩ (by decide)

/-- C10: the names `DB_USER`, `DB_PASS`, `DB_NAME`, `DB_HOST`, `DB_PORT` that
`get_db_connection` passes to `asyncpg.connect` are bound nowhere in the
module, so the helper never returns a connection: every call raises the
HTTP 500 `HTTPException`, and every modelled endpoint that uses the helper
responds with status 500. -/
theorem db_config_names_unbound :
    conn_acquired = false
    ∧ get_db_connection = ConnResult.http_exc 500 db_conn_error_detail
    ∧ db_connect_params.all (fun n => module_top_level_names.contains n) = false
    ∧ (∀ (v p : Except String String), ((test_db ⟨conn_acquired, v, p⟩).1).status = 500)
    ∧ (∀ (q : Except String (List (String × String))),
        ((get_layers conn_acquired q).1).status = 500)
    ∧ (∀ (db : DB) (t : String), ((get_layer_geojson conn_acquired db t).1).status = 500)
    ∧ (∀ (o : QueryOracle) (sql : String),
        ((run_custom_query conn_acquired o sql).1).status = 500)
    ∧ (∀ (eo : Bool) (db : DB) (t : String),
        ((delete_layer conn_acquired eo db t).1).status = 500) := by
  have hca : conn_acquired = false := by decide
  refine ⟨hca, by decide, by decide, ?_, ?_, ?_, ?_, ?_⟩
  · intro v p
    rw [hca]
    rfl
  · intro q
    rw [hca]
    rfl
  · intro db t
    rw [hca]
    rfl
  · intro o sql
    rw [hca]
    rfl
  · intro eo db t
    rw [hca]
    rfl
